import Mathlib

/-!
Shallow embedding of `DynamicBandpassFilter` (src/src/DynamicBandpassFilter.cpp,
src/src/DynamicBandpassFilter.h).

Conventions of the embedding:
* `float`/`double` arithmetic is modelled over `ℚ` (exact arithmetic); the
  comparisons and formulas are translated literally from the source.
* `std::complex<float>` is modelled by the structure `Cq` below with explicit
  real/imaginary parts and the textbook complex multiplication the library
  performs.
* The single transcendental the component uses, `std::pow(10.0f, x)`, is an
  external math-library call; it is threaded through the model as an explicit
  parameter `pow10 : ℚ → ℚ` (the value the library would return).  Theorems
  assume only the facts about `pow10` they need (e.g. nonnegativity), which
  hold of the real function `10^x`.
* The FFT is an external collaborator (fftw plans); the forward and inverse
  transforms are threaded through `process` as parameters
  `F Finv : List Cq → List Cq`.  The unnormalized fftw contract
  `Finv (F x) = N • x` is taken as a hypothesis where a theorem needs it.
* The mutex/atomic structure collapses in the single-caller model: every
  atomic and lock-guarded field becomes a field of `FilterState`.  The
  possibility that the fftw buffers/plans are absent while the object is
  otherwise initialized (the concurrency window `process` explicitly guards
  against at lines 333-336) is modelled by the field `fft_resources_ok`.
-/

set_option allowUnsafeReducibility true in
attribute [semireducible] Rat.mul Rat.inv Rat.add Rat.sub Rat.neg

/-- `std::complex<float>` value: explicit real and imaginary part over `ℚ`. -/
structure Cq where
  re : ℚ
  im : ℚ
deriving DecidableEq, Repr

def czero : Cq := ⟨0, 0⟩

def cone : Cq := ⟨1, 0⟩

/-- Complex multiplication, as performed by `std::complex<float>::operator*`. -/
def cmul (a b : Cq) : Cq := ⟨a.re * b.re - a.im * b.im, a.re * b.im + a.im * b.re⟩

/-- Scaling a complex value by a real factor (`filtered.real() * norm`, `kernel[i] *= s`). -/
def csmul (q : ℚ) (a : Cq) : Cq := ⟨q * a.re, q * a.im⟩

/-- `std::abs` on a complex value.  Every gain the filter ever stores has zero
imaginary part (the kernel is written as `(response, 0)` and only ever scaled
by real factors — see `safelyUpdateKernel` and `applySSBShaping`), and on such
values `std::abs` is `|re|`; the unreachable `im ≠ 0` branch is mapped to `0`
so the definition stays inside `ℚ`. -/
def cabs (z : Cq) : ℚ := if z.im = 0 then |z.re| else 0

/-- `enum Protocol` (DynamicBandpassFilter.h). -/
inductive Protocol where
  | WFM
  | NBFM
  | AM
  | USB
  | LSB
deriving DecidableEq, Repr

/-- `enum FilterShape` (DynamicBandpassFilter.h); informational in the kernel path. -/
inductive FilterShape where
  | RECTANGULAR
  | HAMMING
  | BLACKMAN
  | KAISER
deriving DecidableEq, Repr

/-- `struct ProtocolDefaults` (DynamicBandpassFilter.cpp lines 16-22). -/
structure ProtocolDefaults where
  passband_width : ℚ
  transition_width : ℚ
  stopband_atten : ℚ
  carrier_offset : ℚ
  sharp_cutoff : Bool
deriving DecidableEq, Repr

/-- The static `PROTOCOL_DEFAULTS[]` table (lines 24-30), as a total function
of the protocol variant. -/
def PROTOCOL_DEFAULTS : Protocol → ProtocolDefaults
  | .WFM  => ⟨200000, 1/10, 60, 0, false⟩
  | .NBFM => ⟨12500, 15/100, 50, 0, false⟩
  | .AM   => ⟨8000, 2/10, 40, 0, false⟩
  | .USB  => ⟨3000, 5/100, 70, 1500, true⟩
  | .LSB  => ⟨3000, 5/100, 70, -1500, true⟩

/-- `struct FilterConfig` (DynamicBandpassFilter.h). -/
structure FilterConfig where
  protocol : Protocol
  shape : FilterShape
  stopband_attenuation : ℚ
  center_frequency : ℚ
  bandwidth : ℚ
  sample_rate : ℚ
  ssb_carrier_offset : ℚ
  ssb_sharp_cutoff : Bool
deriving DecidableEq, Repr

/-- `struct FilterStats` (DynamicBandpassFilter.h); the fields the component
actually writes.  `processing_time_ms` is wall-clock time and is not modelled. -/
structure FilterStats where
  is_enabled : Bool
  samples_processed : Nat
  passband_width_hz : ℚ
  stopband_attenuation_db : ℚ
  current_center_freq : ℚ
  ssb_carrier_offset_hz : ℚ
  ssb_mode_active : Bool
deriving DecidableEq, Repr

/-- The object state: every atomic and lock-guarded member of
`DynamicBandpassFilter` that the modelled operations read or write. -/
structure FilterState where
  initialized : Bool
  enabled : Bool
  parameters_changed : Bool
  fft_size : Nat
  frequency_resolution : ℚ
  config : FilterConfig
  filter_kernel : List Cq
  passband_low_hz : ℚ
  passband_high_hz : ℚ
  current_center_freq : ℚ
  ssb_carrier_offset : ℚ
  ssb_sharp_cutoff : Bool
  energy_history : List ℚ
  energy_history_idx : Nat
  total_samples_processed : Nat
  stats : FilterStats
  fft_resources_ok : Bool
deriving DecidableEq, Repr

/-- `protocol == USB || protocol == LSB`, the SSB test the source repeats. -/
def ssbProtocol (p : Protocol) : Bool := p = Protocol.USB ∨ p = Protocol.LSB

/-- The constructor (lines 34-74): default WFM configuration. -/
def initState : FilterState where
  initialized := false
  enabled := false
  parameters_changed := true
  fft_size := 0
  frequency_resolution := 0
  config :=
    { protocol := .WFM
      shape := .BLACKMAN
      stopband_attenuation := 75
      center_frequency := 0
      bandwidth := 200000
      sample_rate := 2048000
      ssb_carrier_offset := 0
      ssb_sharp_cutoff := false }
  filter_kernel := []
  passband_low_hz := 0
  passband_high_hz := 0
  current_center_freq := 0
  ssb_carrier_offset := 0
  ssb_sharp_cutoff := false
  energy_history := List.replicate 32 0
  energy_history_idx := 0
  total_samples_processed := 0
  stats :=
    { is_enabled := false
      samples_processed := 0
      passband_width_hz := 0
      stopband_attenuation_db := 0
      current_center_freq := 0
      ssb_carrier_offset_hz := 0
      ssb_mode_active := false }
  fft_resources_ok := false

/-- `isValidForProcessing` (lines 195-200). -/
def isValidForProcessing (st : FilterState) : Bool :=
  st.initialized && st.enabled && decide (0 < st.fft_size) &&
    decide (0 < st.frequency_resolution)

/-- Bin-to-frequency mapping used by the kernel designer and the SSB shaping
pass (lines 230-236, 676-681): bin `i ≤ N/2` is `i·Δf`, bin `i > N/2` is
`(i−N)·Δf`. -/
def binFreq (N : Nat) (freq_res : ℚ) (i : Nat) : ℚ :=
  if i ≤ N / 2 then (i : ℚ) * freq_res else ((i : ℚ) - (N : ℚ)) * freq_res

/-- The per-bin response computed by `safelyUpdateKernel` (lines 229-287):
base response by protocol, then floored at
`min_response = pow10 (−stopband_attenuation/20)`. -/
def kernelResponse (pow10 : ℚ → ℚ) (st : FilterState) (i : Nat) : ℚ :=
  let freq_res := st.frequency_resolution
  let base_low := st.passband_low_hz + st.current_center_freq
  let base_high := st.passband_high_hz + st.current_center_freq
  let low_cutoff := if ssbProtocol st.config.protocol then
      base_low + st.ssb_carrier_offset else base_low
  let high_cutoff := if ssbProtocol st.config.protocol then
      base_high + st.ssb_carrier_offset else base_high
  let freq := binFreq st.fft_size freq_res i
  let response :=
    if ssbProtocol st.config.protocol then
      if st.ssb_sharp_cutoff then
        let t := freq_res * 1
        let base :=
          if low_cutoff ≤ freq ∧ freq ≤ high_cutoff then 1
          else if low_cutoff - t ≤ freq ∧ freq < low_cutoff then
            let u := (freq - (low_cutoff - t)) / t
            u * u * (3 - 2 * u)
          else if high_cutoff < freq ∧ freq ≤ high_cutoff + t then
            let u := ((high_cutoff + t) - freq) / t
            u * u * (3 - 2 * u)
          else 0
        if st.config.protocol = Protocol.USB ∧ freq < st.current_center_freq then
          base * (1/100)
        else if st.config.protocol = Protocol.LSB ∧ freq > st.current_center_freq then
          base * (1/100)
        else base
      else
        if low_cutoff ≤ freq ∧ freq ≤ high_cutoff then 1 else 0
    else
      if low_cutoff ≤ freq ∧ freq ≤ high_cutoff then 1
      else
        let t := freq_res * 2
        if low_cutoff - t ≤ freq ∧ freq < low_cutoff then
          (freq - (low_cutoff - t)) / t
        else if high_cutoff < freq ∧ freq ≤ high_cutoff + t then
          ((high_cutoff + t) - freq) / t
        else 0
  max response (pow10 (-st.config.stopband_attenuation / 20))

/-- `safelyUpdateKernel` (lines 202-290).  The source resizes the kernel to
`fft_size` and then overwrites every entry, so the result is the fresh list of
per-bin gains `(response, 0)`. -/
def safelyUpdateKernel (pow10 : ℚ → ℚ) (st : FilterState) : FilterState :=
  if ¬ isValidForProcessing st then st
  else
    { st with filter_kernel :=
        (List.range st.fft_size).map fun i => ⟨kernelResponse pow10 st i, 0⟩ }

/-- The per-bin suppression factor of `applySSBShaping` (lines 683-702). -/
def ssbSuppressionFactor (p : Protocol) (center : ℚ) (freq : ℚ) : ℚ :=
  if p = Protocol.USB ∧ freq < center then
    if |freq - center| < 3000 then 1/1000 else 1/10
  else if p = Protocol.LSB ∧ freq > center then
    if |freq - center| < 3000 then 1/1000 else 1/10
  else 1

/-- `applySSBShaping` (lines 655-706).  Under the guard
`filter_kernel.length = fft_size` the in-place loop `kernel[i] *= factor(i)`
is the elementwise product written below. -/
def applySSBShaping (st : FilterState) (fft_size : Nat) (freq_res : ℚ) : FilterState :=
  if st.filter_kernel.length ≠ fft_size then st
  else if ¬ ssbProtocol st.config.protocol then st
  else
    { st with filter_kernel :=
        (List.range fft_size).map fun i =>
          csmul (ssbSuppressionFactor st.config.protocol st.current_center_freq
            (binFreq fft_size freq_res i)) (st.filter_kernel.getD i czero) }

/-- `designSSBFilter` (lines 644-653). -/
def designSSBFilter (pow10 : ℚ → ℚ) (st : FilterState) : FilterState :=
  if ¬ isValidForProcessing st then st
  else
    let st1 := safelyUpdateKernel pow10 st
    applySSBShaping st1 st1.fft_size st1.frequency_resolution

/-- `designFilter` (lines 605-642): dispatch on SSB mode, then refresh the
stats snapshot. -/
def designFilter (pow10 : ℚ → ℚ) (st : FilterState) : FilterState :=
  if ¬ isValidForProcessing st then st
  else
    let st1 := if ssbProtocol st.config.protocol then designSSBFilter pow10 st
               else safelyUpdateKernel pow10 st
    { st1 with stats :=
        { st1.stats with
            passband_width_hz := st1.passband_high_hz - st1.passband_low_hz
            current_center_freq := st1.current_center_freq
            ssb_carrier_offset_hz := st1.ssb_carrier_offset
            stopband_attenuation_db := st1.config.stopband_attenuation
            ssb_mode_active := ssbProtocol st1.config.protocol } }

/-- `cleanup` (lines 762-793). -/
def cleanup (st : FilterState) : FilterState :=
  { st with
      fft_resources_ok := false
      filter_kernel := []
      energy_history := []
      initialized := false }

/-- `initialize` (lines 84-169).  `sample_rate` and `fft_size` are the C `int`
arguments.  Allocation and plan creation are modelled as succeeding (the
failure path is an external out-of-memory condition).  Note that the
`designFilter()` call at line 143 runs while `initialized_` is still false and
is therefore a no-op; the model keeps the call for faithfulness. -/
def initFilter (pow10 : ℚ → ℚ) (st : FilterState) (sample_rate : Int)
    (fft_size : Int) : FilterState × Bool :=
  if sample_rate ≤ 0 ∨ fft_size < 256 ∨ (fft_size.toNat &&& (fft_size.toNat - 1)) ≠ 0 then
    (st, false)
  else
    let N := fft_size.toNat
    let st1 := cleanup st
    let st2 := { st1 with
        config := { st1.config with sample_rate := (sample_rate : ℚ) }
        fft_size := N
        frequency_resolution := (sample_rate : ℚ) / (N : ℚ)
        fft_resources_ok := true
        filter_kernel := List.replicate N cone }
    let d := PROTOCOL_DEFAULTS st2.config.protocol
    let st3 := { st2 with
        passband_low_hz := -(d.passband_width / 2)
        passband_high_hz := d.passband_width / 2
        current_center_freq := st2.config.center_frequency
        ssb_carrier_offset := d.carrier_offset
        ssb_sharp_cutoff := d.sharp_cutoff }
    let st4 := designFilter pow10 st3
    let st5 := { st4 with stats :=
        { is_enabled := st4.enabled
          samples_processed := 0
          passband_width_hz := 0
          stopband_attenuation_db := 0
          current_center_freq := 0
          ssb_carrier_offset_hz := d.carrier_offset
          ssb_mode_active := ssbProtocol st4.config.protocol } }
    ({ st5 with initialized := true, parameters_changed := false }, true)

/-- `configure` (lines 171-184). -/
def configure (st : FilterState) (config : FilterConfig) : FilterState :=
  if ¬ st.initialized then st
  else
    { st with
        config := config
        ssb_carrier_offset := config.ssb_carrier_offset
        ssb_sharp_cutoff := config.ssb_sharp_cutoff
        parameters_changed := true }

/-- `setEnabled` (lines 186-193).  Note: no `initialized_` check in the source. -/
def setEnabled (enabled : Bool) (st : FilterState) : FilterState :=
  { st with enabled := enabled, stats := { st.stats with is_enabled := enabled } }

/-- `setProtocol` (lines 408-447). -/
def setProtocol (st : FilterState) (protocol : Protocol) : FilterState :=
  if ¬ st.initialized then st
  else if st.config.protocol = protocol then st
  else
    let d := PROTOCOL_DEFAULTS protocol
    { st with
        config := { st.config with
            protocol := protocol
            bandwidth := d.passband_width
            stopband_attenuation := d.stopband_atten
            ssb_carrier_offset := d.carrier_offset
            ssb_sharp_cutoff := d.sharp_cutoff }
        passband_low_hz := -(d.passband_width / 2)
        passband_high_hz := d.passband_width / 2
        ssb_carrier_offset := d.carrier_offset
        ssb_sharp_cutoff := d.sharp_cutoff
        parameters_changed := true
        stats := { st.stats with
            ssb_mode_active := ssbProtocol protocol
            ssb_carrier_offset_hz := d.carrier_offset } }

/-- `setPassband` (lines 449-459). -/
def setPassband (st : FilterState) (low_freq high_freq : ℚ) : FilterState :=
  if low_freq ≥ high_freq ∨ ¬ st.initialized then st
  else
    { st with
        passband_low_hz := low_freq
        passband_high_hz := high_freq
        parameters_changed := true }

/-- `setCenterFrequency` (lines 461-474). -/
def setCenterFrequency (st : FilterState) (center_freq : ℚ) : FilterState :=
  if ¬ st.initialized then st
  else
    { st with
        current_center_freq := center_freq
        config := { st.config with center_frequency := center_freq }
        parameters_changed := true }

/-- `setSSBCarrierOffset` (lines 476-494). -/
def setSSBCarrierOffset (st : FilterState) (offset_hz : ℚ) : FilterState :=
  if ¬ st.initialized then st
  else
    { st with
        ssb_carrier_offset := offset_hz
        config := { st.config with ssb_carrier_offset := offset_hz }
        parameters_changed := true
        stats := { st.stats with ssb_carrier_offset_hz := offset_hz } }

/-- `setSSBSharpCutoff` (lines 496-509). -/
def setSSBSharpCutoff (st : FilterState) (enabled : Bool) : FilterState :=
  if ¬ st.initialized then st
  else
    { st with
        ssb_sharp_cutoff := enabled
        config := { st.config with ssb_sharp_cutoff := enabled }
        parameters_changed := true }

/-- `getResponse` (lines 520-554).  The `static_cast<int>` truncation equals
`Int.floor` here because the argument `(frequency + nyquist) / freq_res` is
nonnegative on the path where it is evaluated. -/
def getResponse (st : FilterState) (frequency : ℚ) : ℚ :=
  if ¬ isValidForProcessing st then 1
  else if st.filter_kernel = [] then 1
  else
    let nyquist := st.config.sample_rate / 2
    if |frequency| > nyquist then 0
    else
      let bin0 : ℤ := ⌊(frequency + nyquist) / st.frequency_resolution⌋
      let bin : ℤ := min (max bin0 0) ((st.fft_size : ℤ) - 1)
      if bin < (st.filter_kernel.length : ℤ) then
        cabs (st.filter_kernel.getD bin.toNat czero)
      else 1

/-- `getStats` (lines 561-576): snapshot merged with the live scalar fields. -/
def getStats (st : FilterState) : FilterStats :=
  { st.stats with
      passband_width_hz := st.passband_high_hz - st.passband_low_hz
      current_center_freq := st.current_center_freq
      ssb_carrier_offset_hz := st.ssb_carrier_offset
      stopband_attenuation_db := st.config.stopband_attenuation
      ssb_mode_active := ssbProtocol st.config.protocol }

/-- `getConfiguration` (lines 556-559). -/
def getConfiguration (st : FilterState) : FilterConfig := st.config

/-- `isSSBMode` (lines 515-518). -/
def isSSBMode (st : FilterState) : Bool := ssbProtocol st.config.protocol

/-- `reset` (lines 578-603). -/
def reset (st : FilterState) : FilterState :=
  if ¬ st.initialized then st
  else
    { st with
        energy_history := st.energy_history.map fun _ => 0
        energy_history_idx := 0
        current_center_freq := st.config.center_frequency
        ssb_carrier_offset := st.config.ssb_carrier_offset
        total_samples_processed := 0
        stats := { st.stats with samples_processed := 0 } }

/-- `updateFilterParameters` (lines 795-832). -/
def updateFilterParameters (pow10 : ℚ → ℚ) (st : FilterState) : FilterState :=
  if ¬ isValidForProcessing st then st
  else if ¬ st.parameters_changed then st
  else
    let d := PROTOCOL_DEFAULTS st.config.protocol
    let half_bandwidth := d.passband_width / 2
    let st1 :=
      if ssbProtocol st.config.protocol then
        { st with
            ssb_carrier_offset := st.config.ssb_carrier_offset
            ssb_sharp_cutoff := st.config.ssb_sharp_cutoff }
      else if |st.passband_low_hz + st.passband_high_hz| < 1 then
        { st with
            passband_low_hz := -half_bandwidth
            passband_high_hz := half_bandwidth }
      else st
    let st2 := designFilter pow10 st1
    { st2 with parameters_changed := false }

/-- The block loop of `process` (lines 325-372): per block — zero-pad, forward
transform, elementwise multiply by the kernel when its length matches the FFT
size (silently skipped otherwise, lines 350-358), inverse transform, emit the
first `block_size` samples scaled by `1/fft_size`.  A missing buffer or plan
(`fft_resources_ok = false`) breaks the loop, so the remaining input produces
no output.  The loop is driven by a fuel argument: `process` passes
`input.length`, which bounds the number of iterations of the `while` loop
because every iteration consumes at least one sample (validity gives
`0 < fft_size`, hence `1 ≤ block_size`). -/
def processLoopAux (F Finv : List Cq → List Cq) (N : Nat) (kernel : List Cq)
    (resOk : Bool) : Nat → List Cq → List Cq
  | 0, _ => []
  | _ + 1, [] => []
  | fuel + 1, input =>
    if ¬ resOk then []
    else
      let bs := min N input.length
      let padded := input.take bs ++ List.replicate (N - bs) czero
      let freqDomain := F padded
      let filtered := if kernel.length = N then List.zipWith cmul freqDomain kernel
                      else freqDomain
      let timeDomain := Finv filtered
      ((timeDomain.take bs).map (csmul (1 / (N : ℚ)))) ++
        processLoopAux F Finv N kernel resOk fuel (input.drop bs)

def processLoop (F Finv : List Cq → List Cq) (N : Nat) (kernel : List Cq)
    (resOk : Bool) (input : List Cq) : List Cq :=
  processLoopAux F Finv N kernel resOk input.length input

/-- `process` (lines 292-394): bypass when not valid, empty, or the input is
longer than ten blocks; redesign on the dirty flag; run the block loop; record
the call's sample count in the stats snapshot (line 381 stores the *current*
call's size) and add it to the cumulative atomic counter (line 382). -/
def process (pow10 : ℚ → ℚ) (F Finv : List Cq → List Cq) (st : FilterState)
    (input : List Cq) : FilterState × List Cq :=
  if ¬ isValidForProcessing st ∨ input.isEmpty then (st, input)
  else if 10 * st.fft_size < input.length then (st, input)
  else
    let st1 := if st.parameters_changed then updateFilterParameters pow10 st else st
    let out := processLoop F Finv st1.fft_size st1.filter_kernel
      st1.fft_resources_ok input
    let st2 := { st1 with
        stats := { st1.stats with samples_processed := input.length }
        total_samples_processed := st1.total_samples_processed + input.length }
    (st2, out)

/-- `processInPlace` (lines 396-406): `process` written back over the argument. -/
def processInPlace (pow10 : ℚ → ℚ) (F Finv : List Cq → List Cq) (st : FilterState)
    (samples : List Cq) : FilterState × List Cq :=
  if ¬ isValidForProcessing st ∨ samples.isEmpty then (st, samples)
  else process pow10 F Finv st samples

/-- The non-SSB per-bin response as the spec states it (§4.3 steps 3-4):
unity inside `[low, high]`, a linear ramp across a transition band of width
`2·Δf` at each edge, zero outside, floored at `min_response`.  This definition
follows the spec text and is compared against the kernel the code designs. -/
def specResponse (freqRes minResp low high freq : ℚ) : ℚ :=
  let width := freqRes * 2
  let base :=
    if low ≤ freq ∧ freq ≤ high then 1
    else if low - width ≤ freq ∧ freq < low then (freq - (low - width)) / width
    else if high < freq ∧ freq ≤ high + width then ((high + width) - freq) / width
    else 0
  max base minResp

/-- Concrete stand-in for the external `std::pow(10.0f, x)` at the three
attenuation arguments the concrete traces exercise; each value is the rounded
value of `10^x` (`10^(-3.75) ≈ 1.7783e-4`, `10^(-3.5) ≈ 3.1623e-4`,
`10^(-2) = 0.01`). -/
def pow10ex (x : ℚ) : ℚ :=
  if x = -(75 : ℚ)/20 then 17783/100000000
  else if x = -(70 : ℚ)/20 then 31623/100000000
  else if x = -2 then 1/100
  else 1

/-- Identity transform, used to instantiate the external FFT in concrete
traces whose conclusion does not depend on the transform values. -/
def idF : List Cq → List Cq := fun l => l

/-- Concrete trace: `setEnabled(true)` (which the source accepts even before
`initialize`) followed by a successful `initialize(512000, 256)` with the
constructor's default WFM configuration. -/
def stEnInit : FilterState := (initFilter pow10ex (setEnabled true initState) 512000 256).1

/-- Concrete trace for C1: force a kernel design pass after `stEnInit` by
marking the parameters dirty (`setCenterFrequency(0)`) and running one
`process` call. -/
def wfmTraceC1 : FilterState :=
  (process pow10ex idF idF (setCenterFrequency stEnInit 0) [cone]).1

/-- Concrete trace for C3: two successive one-sample `process` calls. -/
def stP1 : FilterState := (process pow10ex idF idF stEnInit [cone]).1

def stP2 : FilterState := (process pow10ex idF idF stP1 [cone]).1

/-- Concrete trace for C5: switch to USB and run the design pass the dirty
flag triggers. -/
def stUSBdesigned : FilterState :=
  updateFilterParameters pow10ex (setProtocol stEnInit Protocol.USB)

/-- Concrete state for C2: valid for processing but with the transform
buffers/plans gone (the concurrency window the source guards against at
lines 333-336). -/
def stNoRes : FilterState := { stEnInit with fft_resources_ok := false }

/-- Concrete state for C10: valid for processing, clean parameters, but a
kernel whose length does not match the FFT size. -/
def stMism : FilterState := { stEnInit with filter_kernel := [] }

/-- Inverse-transform instantiation for C10's witness: the unnormalized fftw
contract `Finv (F x) = N·x` with `F = id`. -/
def finvScaled : List Cq → List Cq := fun l => l.map (csmul ((stMism.fft_size : ℕ) : ℚ))

/-- Concrete trace for C9: a user-set symmetric passband that differs from
the WFM default. -/
def stSym : FilterState := setPassband stEnInit (-5000) 5000

/-! ### Helper lemmas -/

theorem valid_fields {st : FilterState} (h : isValidForProcessing st = true) :
    st.initialized = true ∧ st.enabled = true ∧ 0 < st.fft_size ∧
      0 < st.frequency_resolution := by
  simp only [isValidForProcessing, Bool.and_eq_true, decide_eq_true_eq] at h
  exact ⟨h.1.1.1, h.1.1.2, h.1.2, h.2⟩

theorem getD_range_map (f : Nat → Cq) (N i : Nat) (h : i < N) :
    ((List.range N).map f).getD i czero = f i := by
  have hlen : i < ((List.range N).map f).length := by simpa using h
  rw [List.getD_eq_getElem?_getD, List.getElem?_eq_getElem hlen]
  simp

theorem safelyUpdateKernel_kernel (pow10 : ℚ → ℚ) (st : FilterState)
    (hv : isValidForProcessing st = true) :
    (safelyUpdateKernel pow10 st).filter_kernel =
      (List.range st.fft_size).map fun i => ⟨kernelResponse pow10 st i, 0⟩ := by
  simp [safelyUpdateKernel, hv]

theorem designFilter_kernel_nonssb (pow10 : ℚ → ℚ) (st : FilterState)
    (hv : isValidForProcessing st = true)
    (hp : ssbProtocol st.config.protocol = false) :
    (designFilter pow10 st).filter_kernel =
      (List.range st.fft_size).map fun i => ⟨kernelResponse pow10 st i, 0⟩ := by
  simp only [designFilter, hv, hp]
  simpa using safelyUpdateKernel_kernel pow10 st hv

/-- The scalar fields that decide validity, the transform resources, and the
cumulative sample counter; all design-pass functions leave them unchanged. -/
def frameA (a b : FilterState) : Prop :=
  a.initialized = b.initialized ∧ a.enabled = b.enabled ∧ a.fft_size = b.fft_size ∧
    a.frequency_resolution = b.frequency_resolution ∧
    a.fft_resources_ok = b.fft_resources_ok ∧
    a.total_samples_processed = b.total_samples_processed

theorem frameA_refl (s : FilterState) : frameA s s := ⟨rfl, rfl, rfl, rfl, rfl, rfl⟩

theorem frameA_trans {a b c : FilterState} (h1 : frameA a b) (h2 : frameA b c) :
    frameA a c := by
  obtain ⟨x1, x2, x3, x4, x5, x6⟩ := h1
  obtain ⟨y1, y2, y3, y4, y5, y6⟩ := h2
  exact ⟨x1.trans y1, x2.trans y2, x3.trans y3, x4.trans y4, x5.trans y5, x6.trans y6⟩

theorem isValid_of_frameA {a b : FilterState} (h : frameA a b) :
    isValidForProcessing a = isValidForProcessing b := by
  obtain ⟨x1, x2, x3, x4, _, _⟩ := h
  simp [isValidForProcessing, x1, x2, x3, x4]

theorem frameA_safelyUpdateKernel (pow10 : ℚ → ℚ) (s : FilterState) :
    frameA (safelyUpdateKernel pow10 s) s := by
  unfold safelyUpdateKernel
  split_ifs <;> exact ⟨rfl, rfl, rfl, rfl, rfl, rfl⟩

theorem frameA_applySSBShaping (s : FilterState) (N : Nat) (fr : ℚ) :
    frameA (applySSBShaping s N fr) s := by
  unfold applySSBShaping
  split_ifs <;> exact ⟨rfl, rfl, rfl, rfl, rfl, rfl⟩

theorem frameA_designSSBFilter (pow10 : ℚ → ℚ) (s : FilterState) :
    frameA (designSSBFilter pow10 s) s := by
  unfold designSSBFilter
  split_ifs with h
  all_goals first
    | exact frameA_refl s
    | exact frameA_trans (frameA_applySSBShaping _ _ _) (frameA_safelyUpdateKernel pow10 s)

theorem frameA_designFilter (pow10 : ℚ → ℚ) (s : FilterState) :
    frameA (designFilter pow10 s) s := by
  unfold designFilter
  split_ifs with h h2
  all_goals first
    | exact frameA_refl s
    | exact frameA_trans ⟨rfl, rfl, rfl, rfl, rfl, rfl⟩ (frameA_designSSBFilter pow10 s)
    | exact frameA_trans ⟨rfl, rfl, rfl, rfl, rfl, rfl⟩ (frameA_safelyUpdateKernel pow10 s)

theorem frameA_updateFilterParameters (pow10 : ℚ → ℚ) (s : FilterState) :
    frameA (updateFilterParameters pow10 s) s := by
  unfold updateFilterParameters
  split_ifs
  all_goals first
    | exact frameA_refl s
    | exact frameA_trans ⟨rfl, rfl, rfl, rfl, rfl, rfl⟩
        (frameA_trans (frameA_designFilter pow10 _) ⟨rfl, rfl, rfl, rfl, rfl, rfl⟩)

/-- The passband-edge fields; the design pass never writes them. -/
def frameP (a b : FilterState) : Prop :=
  a.passband_low_hz = b.passband_low_hz ∧ a.passband_high_hz = b.passband_high_hz

theorem frameP_trans {a b c : FilterState} (h1 : frameP a b) (h2 : frameP b c) :
    frameP a c := ⟨h1.1.trans h2.1, h1.2.trans h2.2⟩

theorem frameP_safelyUpdateKernel (pow10 : ℚ → ℚ) (s : FilterState) :
    frameP (safelyUpdateKernel pow10 s) s := by
  unfold safelyUpdateKernel
  split_ifs <;> exact ⟨rfl, rfl⟩

theorem frameP_applySSBShaping (s : FilterState) (N : Nat) (fr : ℚ) :
    frameP (applySSBShaping s N fr) s := by
  unfold applySSBShaping
  split_ifs <;> exact ⟨rfl, rfl⟩

theorem frameP_designSSBFilter (pow10 : ℚ → ℚ) (s : FilterState) :
    frameP (designSSBFilter pow10 s) s := by
  unfold designSSBFilter
  split_ifs with h
  all_goals first
    | exact ⟨rfl, rfl⟩
    | exact frameP_trans (frameP_applySSBShaping _ _ _) (frameP_safelyUpdateKernel pow10 s)

theorem frameP_designFilter (pow10 : ℚ → ℚ) (s : FilterState) :
    frameP (designFilter pow10 s) s := by
  unfold designFilter
  split_ifs with h h2
  all_goals first
    | exact ⟨rfl, rfl⟩
    | exact frameP_trans ⟨rfl, rfl⟩ (frameP_designSSBFilter pow10 s)
    | exact frameP_trans ⟨rfl, rfl⟩ (frameP_safelyUpdateKernel pow10 s)

theorem processLoopAux_noRes (F Finv : List Cq → List Cq) (N : Nat)
    (kernel : List Cq) (fuel : Nat) (input : List Cq) :
    processLoopAux F Finv N kernel false fuel input = [] := by
  cases fuel with
  | zero => rfl
  | succ n =>
    cases input with
    | nil => rfl
    | cons a l => simp [processLoopAux]

theorem process_run (pow10 : ℚ → ℚ) (F Finv : List Cq → List Cq)
    (st : FilterState) (input : List Cq) (hv : isValidForProcessing st = true)
    (hne : input ≠ []) (hlen : input.length ≤ 10 * st.fft_size) :
    process pow10 F Finv st input =
      (let st1 := if st.parameters_changed then updateFilterParameters pow10 st else st
       ({ st1 with
           stats := { st1.stats with samples_processed := input.length }
           total_samples_processed := st1.total_samples_processed + input.length },
         processLoop F Finv st1.fft_size st1.filter_kernel st1.fft_resources_ok input)) := by
  unfold process
  have h1 : ¬ (¬ isValidForProcessing st ∨ input.isEmpty = true) := by
    rintro (h | h)
    · exact h hv
    · exact hne (List.isEmpty_iff.mp h)
  have h2 : ¬ (10 * st.fft_size < input.length) := Nat.not_lt.mpr hlen
  rw [if_neg h1, if_neg h2]

theorem csmul_csmul_cancel {N : ℚ} (hN : N ≠ 0) (z : Cq) :
    csmul (1 / N) (csmul N z) = z := by
  cases z with
  | mk re im =>
    simp only [csmul, Cq.mk.injEq]
    constructor <;> (rw [one_div, ← mul_assoc, inv_mul_cancel₀ hN, one_mul])

theorem processLoopAux_skip_kernel (F Finv : List Cq → List Cq) (N : Nat)
    (kernel : List Cq) (hN : N ≠ 0) (hk : kernel.length ≠ N)
    (hr : ∀ l, Finv (F l) = l.map (csmul (N : ℚ))) :
    ∀ fuel input, input.length ≤ fuel →
      processLoopAux F Finv N kernel true fuel input = input := by
  intro fuel
  induction fuel with
  | zero =>
    intro input h
    have h0 : input = [] := List.length_eq_zero.mp (Nat.le_zero.mp h)
    subst h0; rfl
  | succ n ih =>
    intro input h
    cases input with
    | nil => rfl
    | cons a l =>
      have hNq : (N : ℚ) ≠ 0 := Nat.cast_ne_zero.mpr hN
      have hbs : 1 ≤ min N (a :: l).length := by
        have := Nat.pos_of_ne_zero hN
        simp only [List.length_cons]
        omega
      simp only [processLoopAux, not_true, if_false, hr, if_neg hk]
      rw [← List.map_take]
      have htl : (List.take (min N (a :: l).length) (a :: l)).length
          = min N (a :: l).length := by
        rw [List.length_take]
        exact Nat.min_eq_left (Nat.min_le_right _ _)
      rw [List.take_left' htl, List.map_map]
      have hmap : ∀ z ∈ List.take (min N (a :: l).length) (a :: l),
          (csmul (1 / (N : ℚ)) ∘ csmul (N : ℚ)) z = id z :=
        fun z _ => csmul_csmul_cancel hNq z
      rw [List.map_congr_left hmap, List.map_id]
      rw [ih (List.drop (min N (a :: l).length) (a :: l)) (by
        rw [List.length_drop]
        simp only [List.length_cons] at h ⊢
        omega)]
      exact List.take_append_drop _ _

theorem process_snd (pow10 : ℚ → ℚ) (F Finv : List Cq → List Cq)
    (st : FilterState) (input : List Cq) (hv : isValidForProcessing st = true)
    (hne : input ≠ []) (hlen : input.length ≤ 10 * st.fft_size) :
    (process pow10 F Finv st input).2 =
      processLoop F Finv
        (if st.parameters_changed then updateFilterParameters pow10 st else st).fft_size
        (if st.parameters_changed then updateFilterParameters pow10 st else st).filter_kernel
        (if st.parameters_changed then updateFilterParameters pow10 st else st).fft_resources_ok
        input := by
  rw [process_run pow10 F Finv st input hv hne hlen]

theorem process_fst (pow10 : ℚ → ℚ) (F Finv : List Cq → List Cq)
    (st : FilterState) (input : List Cq) (hv : isValidForProcessing st = true)
    (hne : input ≠ []) (hlen : input.length ≤ 10 * st.fft_size) :
    (process pow10 F Finv st input).1 =
      (let st1 := if st.parameters_changed then updateFilterParameters pow10 st else st
       { st1 with
           stats := { st1.stats with samples_processed := input.length }
           total_samples_processed := st1.total_samples_processed + input.length }) := by
  rw [process_run pow10 F Finv st input hv hne hlen]

theorem floor_le_kernelResponse (pow10 : ℚ → ℚ) (st : FilterState) (i : Nat)
    (hmr : 0 ≤ pow10 (-st.config.stopband_attenuation / 20)) :
    pow10 (-st.config.stopband_attenuation / 20) ≤
      cabs ⟨kernelResponse pow10 st i, 0⟩ := by
  have h1 : pow10 (-st.config.stopband_attenuation / 20) ≤ kernelResponse pow10 st i := by
    unfold kernelResponse
    exact le_max_right _ _
  have h2 : cabs ⟨kernelResponse pow10 st i, 0⟩ = kernelResponse pow10 st i := by
    unfold cabs
    rw [if_pos rfl, abs_of_nonneg (le_trans hmr h1)]
  rw [h2]
  exact h1

theorem updParams_sym (pow10 : ℚ → ℚ) (st : FilterState)
    (hv : isValidForProcessing st = true) (hd : st.parameters_changed = true)
    (hns : ssbProtocol st.config.protocol = false)
    (hsym : |st.passband_low_hz + st.passband_high_hz| < 1) :
    (updateFilterParameters pow10 st).passband_low_hz =
        -((PROTOCOL_DEFAULTS st.config.protocol).passband_width / 2) ∧
      (updateFilterParameters pow10 st).passband_high_hz =
        (PROTOCOL_DEFAULTS st.config.protocol).passband_width / 2 := by
  simp only [updateFilterParameters, hv, hd, hns, hsym, Bool.false_eq_true, not_true,
    if_false, if_true, Bool.not_true, not_false_eq_true, ite_true, ite_false]
  constructor
  · rw [(frameP_designFilter pow10 _).1]
  · rw [(frameP_designFilter pow10 _).2]

theorem updParams_asym (pow10 : ℚ → ℚ) (st : FilterState)
    (hv : isValidForProcessing st = true) (hd : st.parameters_changed = true)
    (hns : ssbProtocol st.config.protocol = false)
    (hasym : 1 ≤ |st.passband_low_hz + st.passband_high_hz|) :
    (updateFilterParameters pow10 st).passband_low_hz = st.passband_low_hz ∧
      (updateFilterParameters pow10 st).passband_high_hz = st.passband_high_hz := by
  have hns2 : ¬ (|st.passband_low_hz + st.passband_high_hz| < 1) := not_lt.mpr hasym
  simp only [updateFilterParameters, hv, hd, hns, hns2, Bool.false_eq_true, not_true,
    if_false, if_true, Bool.not_true, not_false_eq_true, ite_true, ite_false]
  constructor
  · rw [(frameP_designFilter pow10 _).1]
  · rw [(frameP_designFilter pow10 _).2]

/-! ### Claim theorems -/

set_option maxRecDepth 100000 in
/-- Claim C1 (code bug): after `setEnabled(true)` and a successful
`initialize(512000, 256)` with the default WFM configuration, forcing the
kernel design pass that the dirty flag triggers, `getResponse 0` returns the
stopband floor `10^(-75/20)` instead of ≈ 1.0, and `getResponse (-200000)`
(far beyond `bandwidth/2 + transition`) returns 1.0 instead of a value near
the floor: `getResponse` maps frequency `f` to bin `(f+Nyquist)/Δf` while the
kernel is stored in standard FFT order (bin `N/2` holds `+Nyquist`), and the
initial design inside `initialize` never runs because `initialized_` is set
only afterwards. -/
theorem C1_getResponse_bin_mismatch :
    getResponse wfmTraceC1 0 = pow10ex (-(75 : ℚ)/20) ∧
      pow10ex (-(75 : ℚ)/20) < 1/1000 ∧
      getResponse wfmTraceC1 (-200000) = 1 := by
  refine ⟨by decide, by decide, by decide⟩

set_option maxRecDepth 100000 in
/-- Claim C2 counterexample: with the transform resources missing from the
start of the block loop, a one-sample `process` call returns the empty
sequence, not the original input — refuting the claim that missing transform
resources mid-loop make the call return the original input unchanged. -/
theorem C2_counterexample :
    (process pow10ex idF idF stNoRes [cone]).2 ≠ [cone] ∧
      (process pow10ex idF idF stNoRes [cone]).2 = [] := by
  refine ⟨by decide, by decide⟩

/-- Claim C2 (amended): a processing exception returns the original input,
but missing transform buffers/plans break the block loop, so the call returns
only the output accumulated so far — the empty sequence when they are missing
from the first block — rather than the original input; the object remains
initialized and valid for the next call. -/
theorem C2_missing_resources (pow10 : ℚ → ℚ) (F Finv : List Cq → List Cq)
    (st : FilterState) (input : List Cq) (hv : isValidForProcessing st = true)
    (hres : st.fft_resources_ok = false) (hne : input ≠ [])
    (hlen : input.length ≤ 10 * st.fft_size) :
    (process pow10 F Finv st input).2 = [] ∧
      isValidForProcessing (process pow10 F Finv st input).1 = true := by
  have hfr : frameA (if st.parameters_changed then updateFilterParameters pow10 st else st)
      st := by
    by_cases hp : st.parameters_changed = true
    · rw [if_pos hp]; exact frameA_updateFilterParameters pow10 st
    · rw [if_neg hp]; exact frameA_refl st
  constructor
  · rw [process_snd pow10 F Finv st input hv hne hlen]
    rw [show (if st.parameters_changed then updateFilterParameters pow10 st
        else st).fft_resources_ok = false from hfr.2.2.2.2.1.trans hres]
    unfold processLoop
    exact processLoopAux_noRes F Finv _ _ _ input
  · rw [process_fst pow10 F Finv st input hv hne hlen]
    have h2 : isValidForProcessing
        (let st1 := if st.parameters_changed then updateFilterParameters pow10 st else st
         { st1 with
             stats := { st1.stats with samples_processed := input.length }
             total_samples_processed := st1.total_samples_processed + input.length }) =
      isValidForProcessing
        (if st.parameters_changed then updateFilterParameters pow10 st else st) := rfl
    rw [h2, isValid_of_frameA hfr]
    exact hv

/-- Claim C2 witness: the amended statement at a concrete state (valid, one
pending sample, resources missing). -/
theorem C2_witness :
    isValidForProcessing stNoRes = true ∧ stNoRes.fft_resources_ok = false ∧
      (process pow10ex idF idF stNoRes [cone]).2 = [] :=
  ⟨by decide, by decide,
    (C2_missing_resources pow10ex idF idF stNoRes [cone] (by decide) (by decide)
      (by decide) (by decide)).1⟩

set_option maxRecDepth 100000 in
/-- Claim C3 counterexample: two successive successful one-sample `process`
calls; `getStats` reports 1 — the most recent call's count — while the
internal cumulative counter holds 2, refuting the claim that
`FilterStats.samples_processed` as returned by `getStats` is cumulative. -/
theorem C3_counterexample :
    (getStats stP2).samples_processed = 1 ∧
      stP2.total_samples_processed = 2 ∧
      (process pow10ex idF idF stP1 [cone]).2.length = 1 := by
  refine ⟨by decide, by decide, by decide⟩

/-- Claim C3 (amended): `getStats().samples_processed` reports only the most
recent `process` call's sample count (line 381 overwrites it with
`input.size()`); the internal counter `total_samples_processed_` is the
cumulative one, is advanced by every call that reaches the block loop, and is
zeroed by `reset()` — but it is never exposed through `getStats`. -/
theorem C3_stats_last_call (pow10 : ℚ → ℚ) (F Finv : List Cq → List Cq)
    (st : FilterState) (input : List Cq) (hv : isValidForProcessing st = true)
    (hne : input ≠ []) (hlen : input.length ≤ 10 * st.fft_size) :
    (getStats (process pow10 F Finv st input).1).samples_processed = input.length ∧
      (process pow10 F Finv st input).1.total_samples_processed =
        st.total_samples_processed + input.length ∧
      (reset (process pow10 F Finv st input).1).total_samples_processed = 0 ∧
      (getStats (reset (process pow10 F Finv st input).1)).samples_processed = 0 := by
  have hfr : frameA (if st.parameters_changed then updateFilterParameters pow10 st else st)
      st := by
    by_cases hp : st.parameters_changed = true
    · rw [if_pos hp]; exact frameA_updateFilterParameters pow10 st
    · rw [if_neg hp]; exact frameA_refl st
  rw [process_fst pow10 F Finv st input hv hne hlen]
  have hi : (let st1 := if st.parameters_changed then updateFilterParameters pow10 st else st
      { st1 with
          stats := { st1.stats with samples_processed := input.length }
          total_samples_processed := st1.total_samples_processed + input.length
        } : FilterState).initialized = true :=
    hfr.1.trans (valid_fields hv).1
  refine ⟨rfl, ?_, ?_, ?_⟩
  · show (if st.parameters_changed then updateFilterParameters pow10 st
        else st).total_samples_processed + input.length =
      st.total_samples_processed + input.length
    rw [hfr.2.2.2.2.2]
  · unfold reset
    rw [if_neg (fun hh => hh hi)]
  · unfold reset
    rw [if_neg (fun hh => hh hi)]
    rfl

/-- Claim C3 witness: the amended statement at a concrete trace. -/
theorem C3_witness :
    isValidForProcessing stEnInit = true ∧
      (getStats (process pow10ex idF idF stEnInit [cone]).1).samples_processed = 1 :=
  ⟨by decide,
    (C3_stats_last_call pow10ex idF idF stEnInit [cone] (by decide) (by decide)
      (by decide)).1⟩

/-- Claim C4 counterexample: `setEnabled` has no initialized check, so it is
not a no-op before `initialize` — it changes the state (and the change is
observable through `getStats().is_enabled`). -/
theorem C4_counterexample :
    setEnabled true initState ≠ initState ∧
      (getStats (setEnabled true initState)).is_enabled = true ∧
      (getStats initState).is_enabled = false := by
  refine ⟨by decide, by decide, by decide⟩

/-- Claim C4 (amended): before a successful initialize, `setProtocol`,
`configure`, `setPassband`, `setCenterFrequency`, `setSSBCarrierOffset` and
`setSSBSharpCutoff` are exact no-ops, but `setEnabled` is not: it stores the
enabled flag and updates the stats snapshot even when uninitialized. -/
theorem C4_uninitialized_mutators (st : FilterState) (h : st.initialized = false)
    (p : Protocol) (cfg : FilterConfig) (lo hi f o : ℚ) (b bb : Bool) :
    setProtocol st p = st ∧ configure st cfg = st ∧ setPassband st lo hi = st ∧
      setCenterFrequency st f = st ∧ setSSBCarrierOffset st o = st ∧
      setSSBSharpCutoff st b = st ∧
      (setEnabled bb st).enabled = bb ∧
      (getStats (setEnabled bb st)).is_enabled = bb := by
  have h0 : ¬ (st.initialized = true) := by simp [h]
  refine ⟨?_, ?_, ?_, ?_, ?_, ?_, rfl, rfl⟩
  · unfold setProtocol; rw [if_pos h0]
  · unfold configure; rw [if_pos h0]
  · unfold setPassband; rw [if_pos (Or.inr h0)]
  · unfold setCenterFrequency; rw [if_pos h0]
  · unfold setSSBCarrierOffset; rw [if_pos h0]
  · unfold setSSBSharpCutoff; rw [if_pos h0]

/-- Claim C4 witness: the amended statement at the freshly constructed
state. -/
theorem C4_witness :
    initState.initialized = false ∧ setProtocol initState Protocol.USB = initState :=
  ⟨rfl, (C4_uninitialized_mutators initState rfl Protocol.USB initState.config
    (-1) 1 0 0 false false).1⟩

set_option maxRecDepth 100000 in
/-- Claim C5 counterexample: after the full USB design pass (triggered through
the dirty flag by `setProtocol(USB)` followed by `updateFilterParameters`),
bin 200 of the kernel holds a gain strictly below
`min_response = 10^(−stopband_attenuation/20)`: the SSB shaping pass
multiplies opposite-sideband bins by 0.001/0.1 after the floor was applied. -/
theorem C5_counterexample :
    ssbProtocol stUSBdesigned.config.protocol = true ∧
      cabs (stUSBdesigned.filter_kernel.getD 200 czero) <
        pow10ex (-stUSBdesigned.config.stopband_attenuation / 20) := by
  refine ⟨by decide, by decide⟩

/-- Claim C5 (amended): immediately after `safelyUpdateKernel`, every bin's
gain magnitude is at least `min_response = pow10 (−stopband_attenuation/20)`,
and for every non-SSB protocol this floor survives the full design pass; for
USB/LSB the subsequent `applySSBShaping` pass scales opposite-sideband bins by
0.001 or 0.1 and takes them below the floor. -/
theorem C5_stopband_floor (pow10 : ℚ → ℚ) (st : FilterState)
    (hv : isValidForProcessing st = true)
    (hmr : 0 ≤ pow10 (-st.config.stopband_attenuation / 20)) :
    (∀ i, i < st.fft_size →
        pow10 (-st.config.stopband_attenuation / 20) ≤
          cabs ((safelyUpdateKernel pow10 st).filter_kernel.getD i czero)) ∧
      (ssbProtocol st.config.protocol = false →
        ∀ i, i < st.fft_size →
          pow10 (-st.config.stopband_attenuation / 20) ≤
            cabs ((designFilter pow10 st).filter_kernel.getD i czero)) := by
  constructor
  · intro i hi
    rw [safelyUpdateKernel_kernel pow10 st hv, getD_range_map _ _ _ hi]
    exact floor_le_kernelResponse pow10 st i hmr
  · intro hp i hi
    rw [designFilter_kernel_nonssb pow10 st hv hp, getD_range_map _ _ _ hi]
    exact floor_le_kernelResponse pow10 st i hmr

set_option maxRecDepth 100000 in
/-- Claim C5 witness: the amended statement at the concrete WFM state. -/
theorem C5_witness :
    isValidForProcessing stEnInit = true ∧
      (0 : ℚ) ≤ pow10ex (-stEnInit.config.stopband_attenuation / 20) ∧
      pow10ex (-stEnInit.config.stopband_attenuation / 20) ≤
        cabs ((safelyUpdateKernel pow10ex stEnInit).filter_kernel.getD 0 czero) :=
  ⟨by decide, by decide,
    (C5_stopband_floor pow10ex stEnInit (by decide) (by decide)).1 0 (by decide)⟩

/-- Claim C6 (confirmed): for every non-SSB protocol, the designed kernel
stores at bin `i` the complex gain `(r, 0)` where `r` is the spec's response:
unity on `[passband_low + center, passband_high + center]`, a linear ramp over
a transition band of width `2·Δf` at each edge, zero outside, floored at
`min_response = pow10 (−stopband_attenuation/20)`; bin `i ≤ N/2` is frequency
`i·Δf`, bin `i > N/2` is `(i−N)·Δf`. -/
theorem C6_nonssb_kernel_matches_spec (pow10 : ℚ → ℚ) (st : FilterState)
    (hv : isValidForProcessing st = true)
    (hp : ssbProtocol st.config.protocol = false) :
    ∀ i, i < st.fft_size →
      (designFilter pow10 st).filter_kernel.getD i czero =
        ⟨specResponse st.frequency_resolution
            (pow10 (-st.config.stopband_attenuation / 20))
            (st.passband_low_hz + st.current_center_freq)
            (st.passband_high_hz + st.current_center_freq)
            (binFreq st.fft_size st.frequency_resolution i), 0⟩ := by
  intro i hi
  rw [designFilter_kernel_nonssb pow10 st hv hp, getD_range_map _ _ _ hi]
  have : kernelResponse pow10 st i =
      specResponse st.frequency_resolution
        (pow10 (-st.config.stopband_attenuation / 20))
        (st.passband_low_hz + st.current_center_freq)
        (st.passband_high_hz + st.current_center_freq)
        (binFreq st.fft_size st.frequency_resolution i) := by
    simp only [kernelResponse, specResponse, hp, Bool.false_eq_true, if_false]
  rw [this]

set_option maxRecDepth 100000 in
/-- Claim C6 witness: the statement at the concrete WFM state, bin 0. -/
theorem C6_witness :
    isValidForProcessing stEnInit = true ∧
      ssbProtocol stEnInit.config.protocol = false ∧
      (designFilter pow10ex stEnInit).filter_kernel.getD 0 czero =
        ⟨specResponse stEnInit.frequency_resolution
            (pow10ex (-stEnInit.config.stopband_attenuation / 20))
            (stEnInit.passband_low_hz + stEnInit.current_center_freq)
            (stEnInit.passband_high_hz + stEnInit.current_center_freq)
            (binFreq stEnInit.fft_size stEnInit.frequency_resolution 0), 0⟩ :=
  ⟨by decide, by decide,
    C6_nonssb_kernel_matches_spec pow10ex stEnInit (by decide) (by decide) 0 (by decide)⟩

/-- Claim C7 (confirmed): `setProtocol p` is a no-op when `p` is the current
protocol; otherwise (when initialized) it overwrites bandwidth, stopband
attenuation and the SSB offset/sharpness with `p`'s immutable defaults and
sets the symmetric passband `[-w/2, +w/2]`; and switching USB, then LSB, then
back to the original protocol restores that protocol's default passband width
and stopband attenuation exactly. -/
theorem C7_setProtocol (st : FilterState) (p : Protocol) :
    (p = st.config.protocol → setProtocol st p = st) ∧
      (st.initialized = true → st.config.protocol ≠ p →
        (setProtocol st p).config.bandwidth = (PROTOCOL_DEFAULTS p).passband_width ∧
          (setProtocol st p).config.stopband_attenuation =
            (PROTOCOL_DEFAULTS p).stopband_atten ∧
          (setProtocol st p).config.ssb_carrier_offset =
            (PROTOCOL_DEFAULTS p).carrier_offset ∧
          (setProtocol st p).config.ssb_sharp_cutoff =
            (PROTOCOL_DEFAULTS p).sharp_cutoff ∧
          (setProtocol st p).passband_low_hz =
            -((PROTOCOL_DEFAULTS p).passband_width / 2) ∧
          (setProtocol st p).passband_high_hz =
            (PROTOCOL_DEFAULTS p).passband_width / 2) ∧
      (st.initialized = true →
        (getStats (setProtocol (setProtocol (setProtocol st Protocol.USB) Protocol.LSB)
            st.config.protocol)).passband_width_hz =
          (PROTOCOL_DEFAULTS st.config.protocol).passband_width ∧
        (getStats (setProtocol (setProtocol (setProtocol st Protocol.USB) Protocol.LSB)
            st.config.protocol)).stopband_attenuation_db =
          (PROTOCOL_DEFAULTS st.config.protocol).stopband_atten ∧
        (setProtocol (setProtocol (setProtocol st Protocol.USB) Protocol.LSB)
            st.config.protocol).config.protocol = st.config.protocol) := by
  refine ⟨?_, ?_, ?_⟩
  · intro h
    unfold setProtocol
    by_cases hi : st.initialized = true
    · rw [if_neg (fun hh => hh hi), if_pos h.symm]
    · rw [if_pos hi]
  · intro hi hne
    unfold setProtocol
    rw [if_neg (fun hh => hh hi), if_neg hne]
    exact ⟨rfl, rfl, rfl, rfl, rfl, rfl⟩
  · intro hi
    cases hp0 : st.config.protocol
    all_goals
      simp [setProtocol, getStats, PROTOCOL_DEFAULTS, ssbProtocol, hp0, hi]

/-- Claim C7 witness: the second part at the concrete WFM state and USB. -/
theorem C7_witness :
    stEnInit.initialized = true ∧ stEnInit.config.protocol ≠ Protocol.USB ∧
      (setProtocol stEnInit Protocol.USB).config.bandwidth =
        (PROTOCOL_DEFAULTS Protocol.USB).passband_width :=
  ⟨by decide, by decide,
    ((C7_setProtocol stEnInit Protocol.USB).2.1 (by decide) (by decide)).1⟩

/-- Claim C8 (confirmed): `process` returns the exact input sequence whenever
the filter is not initialized, not enabled, the block size or frequency
resolution is not yet valid, the input is empty, or the input is longer than
`10 × block_size`. -/
theorem C8_bypass (pow10 : ℚ → ℚ) (F Finv : List Cq → List Cq)
    (st : FilterState) (input : List Cq)
    (h : st.initialized = false ∨ st.enabled = false ∨ st.fft_size = 0 ∨
      st.frequency_resolution ≤ 0 ∨ input = [] ∨ 10 * st.fft_size < input.length) :
    (process pow10 F Finv st input).2 = input := by
  unfold process
  by_cases h1 : ¬ isValidForProcessing st ∨ input.isEmpty = true
  · rw [if_pos h1]
  · rw [if_neg h1]
    by_cases h2 : 10 * st.fft_size < input.length
    · rw [if_pos h2]
    · exfalso
      rw [not_or] at h1
      obtain ⟨hv0, hemp⟩ := h1
      have hv : isValidForProcessing st = true := not_not.mp hv0
      obtain ⟨hi, he, hN, hf⟩ := valid_fields hv
      have hne : input ≠ [] := by
        intro hh
        exact hemp (by rw [hh]; rfl)
      rcases h with h | h | h | h | h | h
      · rw [hi] at h; exact Bool.noConfusion h
      · rw [he] at h; exact Bool.noConfusion h
      · omega
      · exact absurd hf (not_lt.mpr h)
      · exact hne h
      · exact h2 h

/-- Claim C8 witness: bypass at the freshly constructed (uninitialized)
state. -/
theorem C8_witness :
    initState.initialized = false ∧
      (process pow10ex idF idF initState [cone]).2 = [cone] :=
  ⟨rfl, C8_bypass pow10ex idF idF initState [cone] (Or.inl rfl)⟩

/-- Claim C9 (confirmed): when the dirty flag triggers a redesign under a
non-SSB protocol, `updateFilterParameters` overwrites passband edges that are
symmetric to within 1 Hz (`|low + high| < 1`) with the protocol default
`[-w/2, +w/2]` before designing, while asymmetric edges survive; hence a
user-set symmetric passband does not survive the next `process` call. -/
theorem C9_symmetric_passband_overwrite (pow10 : ℚ → ℚ) (st : FilterState)
    (hv : isValidForProcessing st = true) (hd : st.parameters_changed = true)
    (hns : ssbProtocol st.config.protocol = false) :
    (|st.passband_low_hz + st.passband_high_hz| < 1 →
      (updateFilterParameters pow10 st).passband_low_hz =
          -((PROTOCOL_DEFAULTS st.config.protocol).passband_width / 2) ∧
        (updateFilterParameters pow10 st).passband_high_hz =
          (PROTOCOL_DEFAULTS st.config.protocol).passband_width / 2) ∧
      (1 ≤ |st.passband_low_hz + st.passband_high_hz| →
        (updateFilterParameters pow10 st).passband_low_hz = st.passband_low_hz ∧
          (updateFilterParameters pow10 st).passband_high_hz = st.passband_high_hz) ∧
      (∀ F Finv : List Cq → List Cq, ∀ input : List Cq, input ≠ [] →
        input.length ≤ 10 * st.fft_size →
        |st.passband_low_hz + st.passband_high_hz| < 1 →
        (process pow10 F Finv st input).1.passband_low_hz =
            -((PROTOCOL_DEFAULTS st.config.protocol).passband_width / 2) ∧
          (process pow10 F Finv st input).1.passband_high_hz =
            (PROTOCOL_DEFAULTS st.config.protocol).passband_width / 2) := by
  refine ⟨updParams_sym pow10 st hv hd hns, updParams_asym pow10 st hv hd hns, ?_⟩
  intro F Finv input hne hlen hsym
  rw [process_fst pow10 F Finv st input hv hne hlen]
  show ((if st.parameters_changed then updateFilterParameters pow10 st
      else st).passband_low_hz = _) ∧
    ((if st.parameters_changed then updateFilterParameters pow10 st
      else st).passband_high_hz = _)
  rw [if_pos hd]
  exact updParams_sym pow10 st hv hd hns hsym

/-- Claim C9 witness: the overwrite at a concrete user-set symmetric passband
`[-5000, 5000]` under WFM (default width 200000). -/
theorem C9_witness :
    isValidForProcessing stSym = true ∧ stSym.parameters_changed = true ∧
      ssbProtocol stSym.config.protocol = false ∧
      |stSym.passband_low_hz + stSym.passband_high_hz| < 1 ∧
      stSym.passband_low_hz = -5000 ∧
      (updateFilterParameters pow10ex stSym).passband_low_hz = -100000 := by
  refine ⟨by decide, by decide, by decide, by decide, by decide, ?_⟩
  have h := ((C9_symmetric_passband_overwrite pow10ex stSym (by decide) (by decide)
    (by decide)).1 (by decide)).1
  rw [h]
  decide

/-- Claim C10 (confirmed): if the kernel's length does not match the current
FFT size (and no redesign is pending), the elementwise multiply is silently
skipped and every block still goes through the forward transform, the inverse
transform and the `1/N` normalization, so under the transform round-trip
contract `Finv (F x) = N·x` the call returns the input unchanged — no fault,
bypass, or out-of-bounds access. -/
theorem C10_kernel_mismatch (pow10 : ℚ → ℚ) (F Finv : List Cq → List Cq)
    (st : FilterState) (input : List Cq) (hv : isValidForProcessing st = true)
    (hres : st.fft_resources_ok = true) (hd : st.parameters_changed = false)
    (hk : st.filter_kernel.length ≠ st.fft_size) (hne : input ≠ [])
    (hlen : input.length ≤ 10 * st.fft_size)
    (hr : ∀ l, Finv (F l) = l.map (csmul ((st.fft_size : ℕ) : ℚ))) :
    (process pow10 F Finv st input).2 = input := by
  have hd0 : ¬ (st.parameters_changed = true) := by simp [hd]
  rw [process_snd pow10 F Finv st input hv hne hlen, if_neg hd0, hres]
  unfold processLoop
  exact processLoopAux_skip_kernel F Finv st.fft_size st.filter_kernel
    (Nat.pos_iff_ne_zero.mp (valid_fields hv).2.2.1) hk hr input.length input (le_refl _)

set_option maxRecDepth 100000 in
/-- Claim C10 witness: a valid state with an empty kernel and FFT size 256;
with `F = id` and `Finv` the `N`-scaling map, a two-sample call returns the
input unchanged. -/
theorem C10_witness :
    stMism.filter_kernel.length ≠ stMism.fft_size ∧
      isValidForProcessing stMism = true ∧
      (process pow10ex idF finvScaled stMism [cone, czero]).2 = [cone, czero] :=
  ⟨by decide, by decide,
    C10_kernel_mismatch pow10ex idF finvScaled stMism [cone, czero] (by decide)
      (by decide) (by decide) (by decide) (by decide) (by decide) (fun l => rfl)⟩
